import Mathlib

/-!
Shallow embedding of the worklog_tool validation/normalization pipeline
(src/tool/validate.py, src/tool/normalize.py, src/tool/build.py).

Python strings are modelled as Lean `String`; `str.strip` is modelled over
ASCII whitespace, `str.isdigit` over the decimal digits, which agree with
CPython on all ASCII text. A CSV row (a `dict[str, str]`) is modelled as an
association list; `row.get(k) or ""` becomes a total lookup defaulting to
the empty string.
-/

/-- Characters removed by the model of Python `str.strip`. -/
def isPySpace (c : Char) : Bool :=
  c == ' ' || c == '\t' || c == '\n' || c == '\r' || c == '\x0b' || c == '\x0c'

/-- Strip leading and trailing whitespace from a character list. -/
def stripChars (l : List Char) : List Char :=
  ((l.dropWhile isPySpace).reverse.dropWhile isPySpace).reverse

/-- Model of Python `s.strip()`. -/
def pyStrip (s : String) : String :=
  String.mk (stripChars s.toList)

/-- Model of Python `s.isdigit()`: non-empty and all decimal digits. -/
def pyIsdigit (s : String) : Bool :=
  !s.toList.isEmpty && s.toList.all (fun c => c.isDigit)

/-- Model of Python `int(s)` on digit-only strings. -/
def pyIntOfDigits (s : String) : Nat :=
  s.toList.foldl (fun a c => 10 * a + (c.toNat - 48)) 0

/-- A raw CSV row: mapping from column name to raw text (`dict[str, str]`). -/
abbrev Row := List (String × String)

/-- Model of Python `(row.get(k) or "")`. -/
def pyGet (row : Row) (k : String) : String :=
  (List.lookup k row).getD ""

/-- Model of Python `s.split(sep)` for a one-character separator. -/
def splitOnChar (sep : Char) : List Char → List (List Char)
  | [] => [[]]
  | c :: cs =>
    match splitOnChar sep cs with
    | [] => [[c]]
    | h :: t => if c = sep then [] :: h :: t else (c :: h) :: t

/-- `RowError` from src/tool/validate.py. -/
structure RowError where
  row_number : Nat
  reason : String
  raw : Row
deriving DecidableEq

/-- `NormalizedRow` from src/tool/normalize.py (same shape in build.py). -/
structure NormalizedRow where
  date : String
  process : String
  operator : String
  minutes : Int
  note : String
deriving DecidableEq

/-- A Python exception, by type name and message. -/
structure PyExc where
  name : String
  msg : String
deriving DecidableEq

/-- `REQUIRED_COLUMNS` from src/tool/validate.py. -/
def REQUIRED_COLUMNS : List String := ["date", "process", "operator"]

/-- `validate_header` from src/tool/validate.py. -/
def validate_header (fieldnames : List String) : List RowError :=
  if REQUIRED_COLUMNS.filter (fun c => !(fieldnames.contains c)) = [] then []
  else
    [⟨0, ("file_error: missing_columns: ") ++
          String.intercalate (",") (REQUIRED_COLUMNS.filter (fun c => !(fieldnames.contains c))),
      [(("header"), String.intercalate (",") fieldnames)]⟩]

/-- The body of the per-row loop of `validate_required_columns`
(src/tool/validate.py): one `missing_required` reason listing all blank
required fields, or nothing. -/
def required_reasons (i : Nat) (row : Row) : List RowError :=
  if REQUIRED_COLUMNS.filter (fun c => pyStrip (pyGet row c) == "") = [] then []
  else
    [⟨i, ("missing_required: ") ++
          String.intercalate (",") (REQUIRED_COLUMNS.filter (fun c => pyStrip (pyGet row c) == "")),
      row⟩]

/-- The local helper `is_hhmm` of `validate_time_rules`
(src/tool/validate.py): length 5, a colon at index 2, digit hour and minute
fields in range. -/
def isHhmmChars : List Char → Bool
  | [h1, h2, c, m1, m2] =>
    if c = ':' ∧ ((h1.isDigit ∧ h2.isDigit) ∧ (m1.isDigit ∧ m2.isDigit)) then
      decide (pyIntOfDigits (String.mk [h1, h2]) ≤ 23 ∧ pyIntOfDigits (String.mk [m1, m2]) ≤ 59)
    else false
  | _ => false

/-- See `isHhmmChars`. -/
def is_hhmm (s : String) : Bool :=
  isHhmmChars (pyStrip s).toList

/-- The body of the per-row loop of `validate_time_rules`
(src/tool/validate.py): minutes mode takes precedence, otherwise both start
and end are required and must be HH:MM, otherwise `time_missing`. -/
def time_rule_reasons (i : Nat) (row : Row) : List RowError :=
  if pyStrip (pyGet row ("minutes")) ≠ "" then
    if ¬ pyIsdigit (pyStrip (pyGet row ("minutes"))) then
      [⟨i, ("minutes_invalid: not an integer"), row⟩]
    else if pyIntOfDigits (pyStrip (pyGet row ("minutes"))) ≤ 0 then
      [⟨i, ("minutes_invalid: must be integer > 0"), row⟩]
    else []
  else if pyStrip (pyGet row ("start")) ≠ "" ∨ pyStrip (pyGet row ("end")) ≠ "" then
    if ¬ (pyStrip (pyGet row ("start")) ≠ "" ∧ pyStrip (pyGet row ("end")) ≠ "") then
      [⟨i, ("time_incomplete: need both start and end"), row⟩]
    else if ¬ is_hhmm (pyStrip (pyGet row ("start"))) then
      [⟨i, ("start_invalid: expected HH:MM"), row⟩]
    else if ¬ is_hhmm (pyStrip (pyGet row ("end"))) then
      [⟨i, ("end_invalid: expected HH:MM"), row⟩]
    else []
  else
    [⟨i, ("time_missing: provide start+end OR minutes"), row⟩]

/-- Accumulating per-row loop shared by `validate_required_columns` and
`validate_time_rules`: `enumerate(rows, start=i)` appending each row's
reasons in order. -/
def rows_from (f : Nat → Row → List RowError) (i : Nat) : List Row → List RowError
  | [] => []
  | r :: rs => f i r ++ rows_from f (i + 1) rs

/-- `validate_required_columns` from src/tool/validate.py. -/
def validate_required_columns (rows : List Row) : List RowError :=
  rows_from required_reasons 2 rows

/-- `validate_time_rules` from src/tool/validate.py. -/
def validate_time_rules (rows : List Row) : List RowError :=
  rows_from time_rule_reasons 2 rows

/-- `run_validate` from src/tool/validate.py, abstracted over the outcome of
`read_csv_utf8` (an exception, or fieldnames plus rows). Returns the exit
status and the error list written to the errors CSV. The whole body is in a
`try`, so a read failure becomes a single row-0 `file_error` entry with
status 2. -/
def run_validate (inputPath : String)
    (readResult : Except PyExc (List String × List Row)) : Nat × List RowError :=
  match readResult with
  | Except.error e =>
    (2, [⟨0, ("file_error: ") ++ e.name ++ (": ") ++ e.msg, [(("input"), inputPath)]⟩])
  | Except.ok (fieldnames, rows) =>
    if validate_header fieldnames ≠ [] then (2, validate_header fieldnames)
    else
      ((if validate_required_columns rows ++ validate_time_rules rows = [] then 0 else 2),
        validate_required_columns rows ++ validate_time_rules rows)

/-- Gregorian leap-year test, as used by Python `datetime`. -/
def isLeap (y : Nat) : Bool :=
  y % 4 == 0 && (y % 100 != 0 || y % 400 == 0)

/-- Number of days in a month, as validated by Python `datetime`. -/
def daysInMonth (y m : Nat) : Nat :=
  if m = 2 then (if isLeap y then 29 else 28)
  else if m = 4 ∨ m = 6 ∨ m = 9 ∨ m = 11 then 30 else 31

/-- The month field pattern of CPython `strptime` directive `%m`:
one or two digits, value 1 to 12. -/
def monthPat (ms : List Char) : Bool :=
  match ms with
  | [c] => decide ('1' ≤ c ∧ c ≤ '9')
  | [a, b] =>
    (a == '1' && decide ('0' ≤ b ∧ b ≤ '2')) || (a == '0' && decide ('1' ≤ b ∧ b ≤ '9'))
  | _ => false

/-- The day field pattern of CPython `strptime` directive `%d`:
one or two digits, value 1 to 31. -/
def dayPat (ds : List Char) : Bool :=
  match ds with
  | [c] => decide ('1' ≤ c ∧ c ≤ '9')
  | [a, b] =>
    (a == '3' && (b == '0' || b == '1')) ||
    ((a == '1' || a == '2') && b.isDigit) ||
    (a == '0' && decide ('1' ≤ b ∧ b ≤ '9'))
  | _ => false

/-- `_parse_date_yyyy_mm_dd` from src/tool/normalize.py (duplicated in
src/tool/build.py): strip, then model of
`datetime.strptime(s, "%Y-%m-%d")` succeeding — a four-digit year of at
least 1, `%m` and `%d` field patterns, and the day no larger than the
length of that month. -/
def pyParseDate (s : String) : Bool :=
  match splitOnChar ('-') (pyStrip s).toList with
  | [ys, ms, ds] =>
    (decide (ys.length = 4) && ys.all (fun c => c.isDigit) &&
      decide (1 ≤ pyIntOfDigits (String.mk ys))) &&
    monthPat ms && dayPat ds &&
    decide (pyIntOfDigits (String.mk ds) ≤
      daysInMonth (pyIntOfDigits (String.mk ys)) (pyIntOfDigits (String.mk ms)))
  | _ => false

/-- `_parse_minutes` from src/tool/normalize.py (duplicated in
src/tool/build.py): `none` for blank, `-1` for a non-digit string, the
value otherwise. -/
def _parse_minutes (s : String) : Option Int :=
  if pyStrip s = "" then none
  else if ¬ pyIsdigit (pyStrip s) then some (-1)
  else some ((pyIntOfDigits (pyStrip s) : Nat) : Int)

/-- `_parse_hhmm_to_minutes` from src/tool/normalize.py (duplicated in
src/tool/build.py): HH:MM to minutes since midnight, `none` when malformed. -/
def hhmmValChars : List Char → Option Nat
  | [h1, h2, c, m1, m2] =>
    if c = ':' ∧ ((h1.isDigit ∧ h2.isDigit) ∧ (m1.isDigit ∧ m2.isDigit)) then
      if pyIntOfDigits (String.mk [h1, h2]) ≤ 23 ∧ pyIntOfDigits (String.mk [m1, m2]) ≤ 59 then
        some (pyIntOfDigits (String.mk [h1, h2]) * 60 + pyIntOfDigits (String.mk [m1, m2]))
      else none
    else none
  | _ => none

/-- See `hhmmValChars`. -/
def _parse_hhmm_to_minutes (s : String) : Option Nat :=
  hhmmValChars (pyStrip s).toList

/-- The start/end section of `normalize_row` (src/tool/normalize.py lines
112-146): silently skip when either field is blank, otherwise parse both,
allow crossing midnight when end is before start, and reject a
non-positive span. -/
def start_end_path (row_number : Nat) (row : Row) : Option NormalizedRow × List RowError :=
  if pyStrip (pyGet row ("start")) = "" ∨ pyStrip (pyGet row ("end")) = "" then (none, [])
  else
    match _parse_hhmm_to_minutes (pyStrip (pyGet row ("start"))) with
    | none => (none, [⟨row_number, ("start_invalid: expected HH:MM"), row⟩])
    | some smin =>
      match _parse_hhmm_to_minutes (pyStrip (pyGet row ("end"))) with
      | none => (none, [⟨row_number, ("end_invalid: expected HH:MM"), row⟩])
      | some emin =>
        if (if emin < smin then 24 * 60 - (smin : Int) + emin else (emin : Int) - smin) ≤ 0 then
          (none, [⟨row_number, ("time_order_invalid: end must be after start"), row⟩])
        else
          (some ⟨pyStrip (pyGet row ("date")), pyStrip (pyGet row ("process")),
                 pyStrip (pyGet row ("operator")),
                 (if emin < smin then 24 * 60 - (smin : Int) + emin else (emin : Int) - smin),
                 pyStrip (pyGet row ("note"))⟩, [])

/-- `normalize_row` from src/tool/normalize.py: date format first
(short-circuit), then minutes mode (which dominates start/end), with the
`pass` on a blank parse falling through to the start/end section. -/
def normalize_row (row_number : Nat) (row : Row) : Option NormalizedRow × List RowError :=
  if ¬ pyParseDate (pyStrip (pyGet row ("date"))) then
    (none, [⟨row_number, ("date_invalid: expected YYYY-MM-DD"), row⟩])
  else if pyStrip (pyGet row ("minutes")) ≠ "" then
    match _parse_minutes (pyStrip (pyGet row ("minutes"))) with
    | none => start_end_path row_number row
    | some m =>
      if m = -1 then (none, [⟨row_number, ("minutes_invalid: not an integer"), row⟩])
      else if m ≤ 0 then (none, [⟨row_number, ("minutes_invalid: must be integer > 0"), row⟩])
      else
        (some ⟨pyStrip (pyGet row ("date")), pyStrip (pyGet row ("process")),
               pyStrip (pyGet row ("operator")), m, pyStrip (pyGet row ("note"))⟩, [])
  else start_end_path row_number row

/-- The body of the per-row normalization loop of `run_build`
(src/tool/build.py lines 80-118), for a row with no earlier validation
error: date format, then minutes mode, then the start/end mode computing
`diff = end - start` with no midnight wraparound and `time_invalid` when
either time fails to parse. In the source this loop never runs, because
`run_build` raises first (see `run_build` below); the body is translated
as written. -/
def build_row_step (i : Nat) (row : Row) : Option NormalizedRow × List RowError :=
  if ¬ pyParseDate (pyStrip (pyGet row ("date"))) then
    (none, [⟨i, ("date_invalid: expected YYYY-MM-DD"), row⟩])
  else
    match _parse_minutes (pyStrip (pyGet row ("minutes"))) with
    | some m =>
      if m = -1 then (none, [⟨i, ("minutes_invalid: not an integer"), row⟩])
      else if m ≤ 0 then (none, [⟨i, ("minutes_invalid: must be integer > 0"), row⟩])
      else
        (some ⟨pyStrip (pyGet row ("date")), pyStrip (pyGet row ("process")),
               pyStrip (pyGet row ("operator")), m, pyStrip (pyGet row ("note"))⟩, [])
    | none =>
      match _parse_hhmm_to_minutes (pyStrip (pyGet row ("start"))),
            _parse_hhmm_to_minutes (pyStrip (pyGet row ("end"))) with
      | some smin, some emin =>
        if (emin : Int) - smin ≤ 0 then
          (none, [⟨i, ("time_order_invalid: end must be after start"), row⟩])
        else
          (some ⟨pyStrip (pyGet row ("date")), pyStrip (pyGet row ("process")),
                 pyStrip (pyGet row ("operator")), (emin : Int) - smin,
                 pyStrip (pyGet row ("note"))⟩, [])
      | _, _ => (none, [⟨i, ("time_invalid: expected HH:MM"), row⟩])

/-- `run_build` from src/tool/build.py, abstracted over the outcome of
`read_csv_utf8`. The function has no `try`, so a read failure propagates
unhandled. On a successful read it assigns the `(fieldnames, rows)` pair to
the single variable `rows` without unpacking it and passes that pair to
`validate_required_columns`, whose first loop iteration calls `.get` on the
fieldnames list and raises `AttributeError`; so every call raises before
any row is normalized or any artifact written. -/
def run_build (readResult : Except PyExc (List String × List Row)) :
    Except PyExc (Nat × List RowError) :=
  match readResult with
  | Except.error e => Except.error e
  | Except.ok _ => Except.error ⟨("AttributeError"), ("list object has no attribute get")⟩

/-- Keep the first occurrence of each string, dropping later duplicates
(the key set of the Python dicts built by `_export_html`). -/
def dedupKeys : List String → List String
  | [] => []
  | s :: rest => s :: (dedupKeys rest).filter (fun t => t != s)

/-- Lexicographic comparison of character lists by code point, the order of
Python `sorted` on strings. -/
def charListLe : List Char → List Char → Bool
  | [], _ => true
  | _ :: _, [] => false
  | a :: as, b :: bs => if a < b then true else if b < a then false else charListLe as bs

/-- Insert into a sorted list of strings. -/
def insertSorted (s : String) : List String → List String
  | [] => [s]
  | t :: ts => if charListLe s.toList t.toList then s :: t :: ts else t :: insertSorted s ts

/-- Model of Python `sorted` on a list of strings. -/
def sortedStrings (l : List String) : List String :=
  l.foldr insertSorted []

/-- `_export_html` from src/tool/build.py, as the list of lines joined into
the report document: a valid-row count, a daily summary table and a process
summary table. The function takes only the normalized rows; no rejection
data reaches it. -/
def export_html_lines (items : List NormalizedRow) : List String :=
  ["<!doctype html><html><head><meta charset=\x27utf-8\x27>",
   "<title>Worklog Report</title></head><body>",
   "<h1>Worklog Report</h1>",
   "<p>valid rows: " ++ toString items.length ++ "</p>",
   "<h2>Daily Summary</h2>",
   "<table border=\x271\x27 cellpadding=\x274\x27 cellspacing=\x270\x27>",
   "<tr><th>date</th><th>total_minutes</th><th>work_count</th></tr>"] ++
  (sortedStrings (dedupKeys (items.map (fun r => r.date)))).map (fun d =>
    "<tr><td>" ++ d ++ "</td><td>" ++
      toString (((items.filter (fun r => r.date == d)).map (fun r => r.minutes)).sum) ++
      "</td><td>" ++ toString ((items.filter (fun r => r.date == d)).length) ++ "</td></tr>") ++
  ["</table>",
   "<h2>Process Summary</h2>",
   "<table border=\x271\x27 cellpadding=\x274\x27 cellspacing=\x270\x27>",
   "<tr><th>process</th><th>count</th><th>sum_minutes</th></tr>"] ++
  (sortedStrings (dedupKeys (items.map (fun r => r.process)))).map (fun p =>
    "<tr><td>" ++ p ++ "</td><td>" ++
      toString ((items.filter (fun r => r.process == p)).length) ++ "</td><td>" ++
      toString (((items.filter (fun r => r.process == p)).map (fun r => r.minutes)).sum) ++
      "</td></tr>") ++
  ["</table>", "</body></html>"]

/-- Substring occurrence test over character lists. -/
def startsWithChars : List Char → List Char → Bool
  | [], _ => true
  | _ :: _, [] => false
  | a :: ps, b :: ls => a == b && startsWithChars ps ls

/-- Whether the pattern occurs anywhere in the list. -/
def occursIn (pat : List Char) : List Char → Bool
  | [] => startsWithChars pat []
  | c :: ls => startsWithChars pat (c :: ls) || occursIn pat ls

/-! ### Facts about the string model -/

theorem dropWhile_head_false (p : Char → Bool) :
    ∀ (l : List Char) (c : Char) (cs : List Char), l.dropWhile p = c :: cs → p c = false := by
  intro l
  induction l with
  | nil => intro c cs h; simp [List.dropWhile] at h
  | cons a as ih =>
    intro c cs h
    rw [List.dropWhile_cons] at h
    by_cases hp : p a
    · rw [if_pos hp] at h
      exact ih c cs h
    · rw [if_neg hp] at h
      cases h
      exact Bool.of_not_eq_true hp

theorem dropWhile_getLast (p : Char → Bool) :
    ∀ l : List Char, l.dropWhile p ≠ [] → (l.dropWhile p).getLast? = l.getLast? := by
  intro l
  induction l with
  | nil => simp
  | cons a as ih =>
    intro h
    rw [List.dropWhile_cons] at h ⊢
    by_cases hp : p a
    · rw [if_pos hp] at h ⊢
      rw [ih h]
      cases as with
      | nil => simp [List.dropWhile] at h
      | cons b bs => simp
    · rw [if_neg hp]

theorem stripChars_idem (l : List Char) : stripChars (stripChars l) = stripChars l := by
  unfold stripChars
  rcases hB : (l.dropWhile isPySpace).reverse.dropWhile isPySpace with _ | ⟨b, bs⟩
  · simp [List.dropWhile]
  · have hA_ne : l.dropWhile isPySpace ≠ [] := by
      intro h
      rw [h] at hB
      simp [List.dropWhile] at hB
    obtain ⟨a, as, ha⟩ : ∃ a as, l.dropWhile isPySpace = a :: as := by
      rcases hA : l.dropWhile isPySpace with _ | ⟨a, as⟩
      · exact absurd hA hA_ne
      · exact ⟨a, as, rfl⟩
    have hpa : isPySpace a = false := dropWhile_head_false isPySpace l a as ha
    have hlast : (b :: bs).getLast? = some a := by
      have h1 := dropWhile_getLast isPySpace (l.dropWhile isPySpace).reverse
        (by rw [hB]; simp)
      rw [hB] at h1
      rw [h1, List.getLast?_reverse, ha]
      rfl
    obtain ⟨R, hR⟩ : ∃ R, (b :: bs).reverse = a :: R := by
      have h2 : (b :: bs).reverse.head? = some a := by
        rw [List.head?_reverse]; exact hlast
      rcases hRv : (b :: bs).reverse with _ | ⟨x, xs⟩
      · rw [hRv] at h2; simp at h2
      · rw [hRv] at h2
        simp at h2
        exact ⟨xs, by rw [h2]⟩
    rw [hR, List.dropWhile_cons_of_neg (by simp [hpa])]
    have hrr : (a :: R).reverse = b :: bs := by
      rw [← hR, List.reverse_reverse]
    rw [hrr]
    have hpb : isPySpace b = false :=
      dropWhile_head_false isPySpace (l.dropWhile isPySpace).reverse b bs hB
    rw [List.dropWhile_cons_of_neg (by simp [hpb])]
    exact hR

theorem toList_mk (l : List Char) : (String.mk l).toList = l := rfl

theorem pyStrip_idem (s : String) : pyStrip (pyStrip s) = pyStrip s := by
  unfold pyStrip
  rw [toList_mk, stripChars_idem]

theorem stripChars_of_no_space (l : List Char) (h : ∀ c ∈ l, isPySpace c = false) :
    stripChars l = l := by
  unfold stripChars
  have h1 : l.dropWhile isPySpace = l := by
    cases l with
    | nil => rfl
    | cons a as => exact List.dropWhile_cons_of_neg (by simp [h a (by simp)])
  rw [h1]
  have h2 : l.reverse.dropWhile isPySpace = l.reverse := by
    cases hr : l.reverse with
    | nil => rfl
    | cons a as =>
      have ham : a ∈ l := by
        have hm : a ∈ l.reverse := by rw [hr]; simp
        simpa using hm
      exact List.dropWhile_cons_of_neg (by simp [h a ham])
  rw [h2, List.reverse_reverse]

theorem digit_not_space (c : Char) (h : c.isDigit = true) : isPySpace c = false := by
  unfold isPySpace
  rcases eq_or_ne c ' ' with rfl | h1
  · exact absurd h (by decide)
  rcases eq_or_ne c '\t' with rfl | h2
  · exact absurd h (by decide)
  rcases eq_or_ne c '\n' with rfl | h3
  · exact absurd h (by decide)
  rcases eq_or_ne c '\r' with rfl | h4
  · exact absurd h (by decide)
  rcases eq_or_ne c '\x0b' with rfl | h5
  · exact absurd h (by decide)
  rcases eq_or_ne c '\x0c' with rfl | h6
  · exact absurd h (by decide)
  simp [h1, h2, h3, h4, h5, h6]

theorem pyStrip_of_isdigit (s : String) (h : pyIsdigit s = true) : pyStrip s = s := by
  unfold pyIsdigit at h
  rw [Bool.and_eq_true] at h
  have hall := h.2
  rw [List.all_eq_true] at hall
  unfold pyStrip
  rw [stripChars_of_no_space s.toList (fun c hc => digit_not_space c (hall c hc))]
  rfl

theorem pyIsdigit_ne_empty (s : String) (h : pyIsdigit s = true) : s ≠ "" := by
  unfold pyIsdigit at h
  rw [Bool.and_eq_true] at h
  intro he
  rw [he] at h
  simp at h

/-! ### Facts about the time and minutes field parsers -/

theorem isHhmmChars_iff_isSome (cs : List Char) :
    isHhmmChars cs = true ↔ (hhmmValChars cs).isSome = true := by
  rcases cs with _ | ⟨a, _ | ⟨b, _ | ⟨c, _ | ⟨d, _ | ⟨e, _ | rest⟩⟩⟩⟩⟩ <;>
    simp [isHhmmChars, hhmmValChars]
  split
  · split <;> simp_all
  · simp_all

theorem is_hhmm_iff_isSome (s : String) :
    is_hhmm s = true ↔ (_parse_hhmm_to_minutes s).isSome = true := by
  unfold is_hhmm _parse_hhmm_to_minutes
  exact isHhmmChars_iff_isSome _

theorem hhmmValChars_le (cs : List Char) (v : Nat) (h : hhmmValChars cs = some v) :
    v ≤ 1439 := by
  rcases cs with _ | ⟨a, _ | ⟨b, _ | ⟨c, _ | ⟨d, _ | ⟨e, _ | rest⟩⟩⟩⟩⟩ <;>
    simp [hhmmValChars] at h
  omega

theorem parse_hhmm_le (s : String) (v : Nat) (h : _parse_hhmm_to_minutes s = some v) :
    v ≤ 1439 := by
  unfold _parse_hhmm_to_minutes at h
  exact hhmmValChars_le _ v h

theorem parse_hhmm_empty : _parse_hhmm_to_minutes ("") = none := by decide

theorem parse_minutes_of_isdigit (s : String) (h : pyIsdigit s = true) :
    _parse_minutes s = some ((pyIntOfDigits s : Nat) : Int) := by
  unfold _parse_minutes
  rw [pyStrip_of_isdigit s h]
  rw [if_neg (pyIsdigit_ne_empty s h)]
  rw [if_neg (by simp [h])]

theorem parse_minutes_of_not_isdigit (s : String) (hs : pyStrip s = s) (hne : s ≠ "")
    (h : pyIsdigit s = false) : _parse_minutes s = some (-1) := by
  unfold _parse_minutes
  rw [hs]
  rw [if_neg hne]
  rw [if_pos (by simp [h])]

theorem parse_minutes_stripped_ne_none (s : String) (hs : pyStrip s = s) (hne : s ≠ "") :
    _parse_minutes s ≠ none := by
  by_cases hd : pyIsdigit s = true
  · rw [parse_minutes_of_isdigit s hd]; simp
  · rw [parse_minutes_of_not_isdigit s hs hne (by simpa using hd)]; simp

theorem parse_hhmm_some_ne_empty (s : String) (v : Nat)
    (h : _parse_hhmm_to_minutes s = some v) : s ≠ "" := by
  intro he
  rw [he, parse_hhmm_empty] at h
  exact Option.noConfusion h

/-! ### Branch evaluations of `normalize_row` -/

theorem normalize_row_date_bad (i : Nat) (row : Row)
    (h : pyParseDate (pyStrip (pyGet row ("date"))) = false) :
    normalize_row i row = (none, [⟨i, ("date_invalid: expected YYYY-MM-DD"), row⟩]) := by
  unfold normalize_row
  rw [if_pos (by simp [h])]

theorem normalize_row_minutes_pos (i : Nat) (row : Row)
    (hd : pyParseDate (pyStrip (pyGet row ("date"))) = true)
    (hdig : pyIsdigit (pyStrip (pyGet row ("minutes"))) = true)
    (hv : 0 < pyIntOfDigits (pyStrip (pyGet row ("minutes")))) :
    normalize_row i row =
      (some ⟨pyStrip (pyGet row ("date")), pyStrip (pyGet row ("process")),
             pyStrip (pyGet row ("operator")),
             ((pyIntOfDigits (pyStrip (pyGet row ("minutes"))) : Nat) : Int),
             pyStrip (pyGet row ("note"))⟩, []) := by
  have h1 : ((pyIntOfDigits (pyStrip (pyGet row ("minutes"))) : Nat) : Int) ≠ -1 := by omega
  have h2 : ¬ (((pyIntOfDigits (pyStrip (pyGet row ("minutes"))) : Nat) : Int) ≤ 0) := by omega
  unfold normalize_row
  rw [if_neg (by simp [hd])]
  rw [if_pos (pyIsdigit_ne_empty _ hdig)]
  rw [parse_minutes_of_isdigit _ hdig]
  simp [h1, h2]

theorem normalize_row_minutes_zero (i : Nat) (row : Row)
    (hd : pyParseDate (pyStrip (pyGet row ("date"))) = true)
    (hdig : pyIsdigit (pyStrip (pyGet row ("minutes"))) = true)
    (hz : pyIntOfDigits (pyStrip (pyGet row ("minutes"))) = 0) :
    normalize_row i row =
      (none, [⟨i, ("minutes_invalid: must be integer > 0"), row⟩]) := by
  unfold normalize_row
  rw [if_neg (by simp [hd])]
  rw [if_pos (pyIsdigit_ne_empty _ hdig)]
  rw [parse_minutes_of_isdigit _ hdig]
  rw [hz]
  norm_num

theorem normalize_row_minutes_notdigit (i : Nat) (row : Row)
    (hd : pyParseDate (pyStrip (pyGet row ("date"))) = true)
    (hne : pyStrip (pyGet row ("minutes")) ≠ "")
    (hnd : pyIsdigit (pyStrip (pyGet row ("minutes"))) = false) :
    normalize_row i row =
      (none, [⟨i, ("minutes_invalid: not an integer"), row⟩]) := by
  unfold normalize_row
  rw [if_neg (by simp [hd])]
  rw [if_pos hne]
  rw [parse_minutes_of_not_isdigit _ (pyStrip_idem _) hne hnd]
  norm_num

theorem start_end_path_blank (i : Nat) (row : Row)
    (hblank : pyStrip (pyGet row ("start")) = "" ∨ pyStrip (pyGet row ("end")) = "") :
    start_end_path i row = (none, []) := by
  unfold start_end_path
  rw [if_pos hblank]

theorem start_end_path_start_bad (i : Nat) (row : Row)
    (hstne : pyStrip (pyGet row ("start")) ≠ "")
    (henne : pyStrip (pyGet row ("end")) ≠ "")
    (hs : _parse_hhmm_to_minutes (pyStrip (pyGet row ("start"))) = none) :
    start_end_path i row = (none, [⟨i, ("start_invalid: expected HH:MM"), row⟩]) := by
  unfold start_end_path
  rw [if_neg (by simp [hstne, henne])]
  rw [hs]

theorem start_end_path_end_bad (i : Nat) (row : Row) (smin : Nat)
    (hstne : pyStrip (pyGet row ("start")) ≠ "")
    (henne : pyStrip (pyGet row ("end")) ≠ "")
    (hs : _parse_hhmm_to_minutes (pyStrip (pyGet row ("start"))) = some smin)
    (he : _parse_hhmm_to_minutes (pyStrip (pyGet row ("end"))) = none) :
    start_end_path i row = (none, [⟨i, ("end_invalid: expected HH:MM"), row⟩]) := by
  unfold start_end_path
  rw [if_neg (by simp [hstne, henne])]
  rw [hs, he]

theorem start_end_path_parsed (i : Nat) (row : Row) (smin emin : Nat)
    (hs : _parse_hhmm_to_minutes (pyStrip (pyGet row ("start"))) = some smin)
    (he : _parse_hhmm_to_minutes (pyStrip (pyGet row ("end"))) = some emin) :
    start_end_path i row =
      (if (if emin < smin then 24 * 60 - (smin : Int) + emin else (emin : Int) - smin) ≤ 0 then
        (none, [⟨i, ("time_order_invalid: end must be after start"), row⟩])
      else
        (some ⟨pyStrip (pyGet row ("date")), pyStrip (pyGet row ("process")),
               pyStrip (pyGet row ("operator")),
               (if emin < smin then 24 * 60 - (smin : Int) + emin else (emin : Int) - smin),
               pyStrip (pyGet row ("note"))⟩, [])) := by
  unfold start_end_path
  rw [if_neg (by simp [parse_hhmm_some_ne_empty _ _ hs, parse_hhmm_some_ne_empty _ _ he])]
  rw [hs, he]

theorem normalize_row_no_minutes (i : Nat) (row : Row)
    (hd : pyParseDate (pyStrip (pyGet row ("date"))) = true)
    (hm : pyStrip (pyGet row ("minutes")) = "") :
    normalize_row i row = start_end_path i row := by
  unfold normalize_row
  rw [if_neg (by simp [hd])]
  rw [if_neg (by simp [hm])]

theorem normalize_row_rec_pos (i : Nat) (row : Row) (rec : NormalizedRow)
    (errs : List RowError) (h : normalize_row i row = (some rec, errs)) :
    0 < rec.minutes := by
  by_cases hd : pyParseDate (pyStrip (pyGet row ("date"))) = true
  case neg =>
    rw [normalize_row_date_bad i row (by simpa using hd)] at h
    exact absurd h (by simp)
  case pos =>
    by_cases hm : pyStrip (pyGet row ("minutes")) = ""
    case pos =>
      rw [normalize_row_no_minutes i row hd hm] at h
      by_cases hblank : pyStrip (pyGet row ("start")) = "" ∨ pyStrip (pyGet row ("end")) = ""
      case pos =>
        rw [start_end_path_blank i row hblank] at h
        exact absurd h (by simp)
      case neg =>
        push_neg at hblank
        obtain ⟨hst, hen⟩ := hblank
        cases hs : _parse_hhmm_to_minutes (pyStrip (pyGet row ("start"))) with
        | none =>
          rw [start_end_path_start_bad i row hst hen hs] at h
          exact absurd h (by simp)
        | some smin =>
          cases he : _parse_hhmm_to_minutes (pyStrip (pyGet row ("end"))) with
          | none =>
            rw [start_end_path_end_bad i row smin hst hen hs he] at h
            exact absurd h (by simp)
          | some emin =>
            rw [start_end_path_parsed i row smin emin hs he] at h
            split at h <;> split at h
            · exact absurd h (by simp)
            · rename_i hdiff
              simp only [Prod.mk.injEq, Option.some.injEq] at h
              obtain ⟨h1, h2⟩ := h
              subst h1
              exact not_le.mp hdiff
            · exact absurd h (by simp)
            · rename_i hdiff
              simp only [Prod.mk.injEq, Option.some.injEq] at h
              obtain ⟨h1, h2⟩ := h
              subst h1
              exact not_le.mp hdiff
    case neg =>
      by_cases hdig : pyIsdigit (pyStrip (pyGet row ("minutes"))) = true
      case pos =>
        rcases Nat.eq_zero_or_pos (pyIntOfDigits (pyStrip (pyGet row ("minutes")))) with hz | hpos
        · rw [normalize_row_minutes_zero i row hd hdig hz] at h
          exact absurd h (by simp)
        · rw [normalize_row_minutes_pos i row hd hdig hpos] at h
          simp only [Prod.mk.injEq, Option.some.injEq] at h
          obtain ⟨h1, h2⟩ := h
          subst h1
          show (0 : Int) < ((pyIntOfDigits (pyStrip (pyGet row ("minutes"))) : Nat) : Int)
          exact_mod_cast hpos
      case neg =>
        rw [normalize_row_minutes_notdigit i row hd hm (by simpa using hdig)] at h
        exact absurd h (by simp)

theorem build_row_step_rec_pos (i : Nat) (row : Row) (rec : NormalizedRow)
    (errs : List RowError) (h : build_row_step i row = (some rec, errs)) :
    0 < rec.minutes := by
  unfold build_row_step at h
  split at h
  · exact absurd h (by simp)
  · split at h
    · split at h
      · exact absurd h (by simp)
      · split at h
        · exact absurd h (by simp)
        · rename_i hm1 hm2
          simp only [Prod.mk.injEq, Option.some.injEq] at h
          obtain ⟨h1, h2⟩ := h
          subst h1
          exact not_le.mp hm2
    · split at h
      · split at h
        · exact absurd h (by simp)
        · rename_i hdiff
          simp only [Prod.mk.injEq, Option.some.injEq] at h
          obtain ⟨h1, h2⟩ := h
          subst h1
          exact not_le.mp hdiff
      · exact absurd h (by simp)

/-! ### Per-row reason lists and the accumulating loops -/

theorem time_rule_reasons_tag (i : Nat) (row : Row) (e : RowError)
    (h : e ∈ time_rule_reasons i row) : e.row_number = i := by
  unfold time_rule_reasons at h
  split_ifs at h <;> simp_all

theorem time_rule_reasons_len (i : Nat) (row : Row) :
    (time_rule_reasons i row).length ≤ 1 := by
  unfold time_rule_reasons
  split_ifs <;> simp

theorem required_reasons_tag (i : Nat) (row : Row) (e : RowError)
    (h : e ∈ required_reasons i row) : e.row_number = i := by
  unfold required_reasons at h
  split_ifs at h <;> simp_all

theorem required_reasons_len (i : Nat) (row : Row) :
    (required_reasons i row).length ≤ 1 := by
  unfold required_reasons
  split_ifs <;> simp

theorem rows_from_mem_ge (f : Nat → Row → List RowError)
    (hf : ∀ i r e, e ∈ f i r → e.row_number = i) :
    ∀ (rs : List Row) (i : Nat) (e : RowError), e ∈ rows_from f i rs → i ≤ e.row_number := by
  intro rs
  induction rs with
  | nil => intro i e h; simp [rows_from] at h
  | cons r rs ih =>
    intro i e h
    rw [rows_from] at h
    rw [List.mem_append] at h
    rcases h with h | h
    · exact le_of_eq (hf i r e h).symm
    · exact le_trans (Nat.le_succ i) (ih (i + 1) e h)

theorem rows_from_filter_len (f : Nat → Row → List RowError)
    (hf : ∀ i r e, e ∈ f i r → e.row_number = i)
    (hlen : ∀ i r, (f i r).length ≤ 1) :
    ∀ (rs : List Row) (i k : Nat),
      ((rows_from f i rs).filter (fun e => e.row_number == k)).length ≤ 1 := by
  intro rs
  induction rs with
  | nil => intro i k; simp [rows_from]
  | cons r rs ih =>
    intro i k
    rw [rows_from, List.filter_append, List.length_append]
    by_cases hk : k = i
    · have h2 : (rows_from f (i + 1) rs).filter (fun e => e.row_number == k) = [] := by
        rw [List.filter_eq_nil_iff]
        intro a ha
        have hge := rows_from_mem_ge f hf rs (i + 1) a ha
        simp
        omega
      rw [h2]
      simp
      calc ((f i r).filter (fun e => e.row_number == k)).length
          ≤ (f i r).length := List.length_filter_le _ _
        _ ≤ 1 := hlen i r
    · have h1 : (f i r).filter (fun e => e.row_number == k) = [] := by
        rw [List.filter_eq_nil_iff]
        intro a ha
        have := hf i r a ha
        simp
        omega
      rw [h1]
      simpa using ih (i + 1) k

/-! ### Claim theorems -/

/-- C1: validator/normalizer agreement. If `validate_time_rules` produces no
reason for a row (per-row check `time_rule_reasons` is empty), then every
reason `normalize_row` emits for that row is `date_invalid` or
`time_order_invalid` — never one of the validator's own time-specification
codes (`minutes_invalid`, `time_incomplete`, `start_invalid`,
`end_invalid`, `time_missing`). -/
theorem validator_normalizer_agreement (i : Nat) (row : Row)
    (hacc : time_rule_reasons i row = [])
    (e : RowError) (he : e ∈ (normalize_row i row).2) :
    e.reason = ("date_invalid: expected YYYY-MM-DD") ∨
    e.reason = ("time_order_invalid: end must be after start") := by
  by_cases hd : pyParseDate (pyStrip (pyGet row ("date"))) = true
  case neg =>
    rw [normalize_row_date_bad i row (by simpa using hd)] at he
    simp at he
    subst he
    left
    rfl
  case pos =>
    unfold time_rule_reasons at hacc
    by_cases hm : pyStrip (pyGet row ("minutes")) = ""
    case neg =>
      rw [if_pos hm] at hacc
      by_cases hdig : pyIsdigit (pyStrip (pyGet row ("minutes"))) = true
      case neg =>
        rw [if_pos hdig] at hacc
        exact absurd hacc (by simp)
      case pos =>
        rw [if_neg (not_not_intro hdig)] at hacc
        by_cases hz : pyIntOfDigits (pyStrip (pyGet row ("minutes"))) ≤ 0
        · rw [if_pos hz] at hacc
          exact absurd hacc (by simp)
        · rw [normalize_row_minutes_pos i row hd hdig (by omega)] at he
          simp at he
    case pos =>
      rw [if_neg (not_not_intro hm)] at hacc
      by_cases hse : pyStrip (pyGet row ("start")) ≠ "" ∨ pyStrip (pyGet row ("end")) ≠ ""
      case neg =>
        rw [if_neg hse] at hacc
        exact absurd hacc (by simp)
      case pos =>
        rw [if_pos hse] at hacc
        by_cases hboth : pyStrip (pyGet row ("start")) ≠ "" ∧ pyStrip (pyGet row ("end")) ≠ ""
        case neg =>
          rw [if_pos hboth] at hacc
          exact absurd hacc (by simp)
        case pos =>
          rw [if_neg (not_not_intro hboth)] at hacc
          by_cases hsh : is_hhmm (pyStrip (pyGet row ("start"))) = true
          case neg =>
            rw [if_pos hsh] at hacc
            exact absurd hacc (by simp)
          case pos =>
            rw [if_neg (not_not_intro hsh)] at hacc
            by_cases heh : is_hhmm (pyStrip (pyGet row ("end"))) = true
            case neg =>
              rw [if_pos heh] at hacc
              exact absurd hacc (by simp)
            case pos =>
              obtain ⟨smin, hs⟩ :
                  ∃ v, _parse_hhmm_to_minutes (pyStrip (pyGet row ("start"))) = some v :=
                Option.isSome_iff_exists.mp ((is_hhmm_iff_isSome _).mp hsh)
              obtain ⟨emin, hee⟩ :
                  ∃ v, _parse_hhmm_to_minutes (pyStrip (pyGet row ("end"))) = some v :=
                Option.isSome_iff_exists.mp ((is_hhmm_iff_isSome _).mp heh)
              rw [normalize_row_no_minutes i row hd hm] at he
              rw [start_end_path_parsed i row smin emin hs hee] at he
              split at he <;> split at he
              · simp at he
                subst he
                right
                rfl
              · simp at he
              · simp at he
                subst he
                right
                rfl
              · simp at he

/-- Witness for C1 at a concrete accepted row whose date is malformed. -/
theorem validator_normalizer_agreement_witness :
    (⟨2, ("date_invalid: expected YYYY-MM-DD"),
        [(("date"), ("oops")), (("minutes"), ("30"))]⟩ : RowError).reason =
      ("date_invalid: expected YYYY-MM-DD") ∨
    (⟨2, ("date_invalid: expected YYYY-MM-DD"),
        [(("date"), ("oops")), (("minutes"), ("30"))]⟩ : RowError).reason =
      ("time_order_invalid: end must be after start") :=
  validator_normalizer_agreement 2 [(("date"), ("oops")), (("minutes"), ("30"))]
    (by decide) _ (by decide)

/-- C6 (amended): `normalize_row` never returns both a record and reasons,
and its both-empty result occurs exactly when the date is well-formed, the
minutes field is blank, and at least one of start/end is blank — not only
when all time fields are blank. -/
theorem normalize_row_result_shape (i : Nat) (row : Row) :
    ((normalize_row i row).1.isSome = true → (normalize_row i row).2 = []) ∧
    ((normalize_row i row) = (none, []) ↔
      (pyParseDate (pyStrip (pyGet row ("date"))) = true ∧
       pyStrip (pyGet row ("minutes")) = "" ∧
       (pyStrip (pyGet row ("start")) = "" ∨ pyStrip (pyGet row ("end")) = ""))) := by
  by_cases hd : pyParseDate (pyStrip (pyGet row ("date"))) = true
  case neg =>
    rw [normalize_row_date_bad i row (by simpa using hd)]
    refine ⟨by simp, ?_⟩
    constructor
    · intro h
      simp at h
    · rintro ⟨h1, _, _⟩
      exact absurd h1 hd
  case pos =>
    by_cases hm : pyStrip (pyGet row ("minutes")) = ""
    case pos =>
      rw [normalize_row_no_minutes i row hd hm]
      by_cases hblank : pyStrip (pyGet row ("start")) = "" ∨ pyStrip (pyGet row ("end")) = ""
      case pos =>
        rw [start_end_path_blank i row hblank]
        refine ⟨by simp, ?_⟩
        constructor
        · intro _
          exact ⟨hd, hm, hblank⟩
        · intro _
          rfl
      case neg =>
        push_neg at hblank
        obtain ⟨hst, hen⟩ := hblank
        have hrhs : ¬ (pyParseDate (pyStrip (pyGet row ("date"))) = true ∧
            pyStrip (pyGet row ("minutes")) = "" ∧
            (pyStrip (pyGet row ("start")) = "" ∨ pyStrip (pyGet row ("end")) = "")) := by
          rintro ⟨_, _, hb | hb⟩
          · exact hst hb
          · exact hen hb
        cases hs : _parse_hhmm_to_minutes (pyStrip (pyGet row ("start"))) with
        | none =>
          rw [start_end_path_start_bad i row hst hen hs]
          refine ⟨by simp, ?_⟩
          constructor
          · intro h
            simp at h
          · intro h
            exact absurd h hrhs
        | some smin =>
          cases he2 : _parse_hhmm_to_minutes (pyStrip (pyGet row ("end"))) with
          | none =>
            rw [start_end_path_end_bad i row smin hst hen hs he2]
            refine ⟨by simp, ?_⟩
            constructor
            · intro h
              simp at h
            · intro h
              exact absurd h hrhs
          | some emin =>
            rw [start_end_path_parsed i row smin emin hs he2]
            split <;> split
            all_goals refine ⟨by simp, ?_⟩
            all_goals constructor
            all_goals intro h
            all_goals first
              | exact absurd h hrhs
              | simp at h
    case neg =>
      have hrhs : ¬ (pyParseDate (pyStrip (pyGet row ("date"))) = true ∧
          pyStrip (pyGet row ("minutes")) = "" ∧
          (pyStrip (pyGet row ("start")) = "" ∨ pyStrip (pyGet row ("end")) = "")) := by
        rintro ⟨_, h2, _⟩
        exact hm h2
      by_cases hdig : pyIsdigit (pyStrip (pyGet row ("minutes"))) = true
      case pos =>
        rcases Nat.eq_zero_or_pos (pyIntOfDigits (pyStrip (pyGet row ("minutes")))) with hz | hpos
        · rw [normalize_row_minutes_zero i row hd hdig hz]
          refine ⟨by simp, ?_⟩
          constructor
          · intro h
            simp at h
          · intro h
            exact absurd h hrhs
        · rw [normalize_row_minutes_pos i row hd hdig hpos]
          refine ⟨by simp, ?_⟩
          constructor
          · intro h
            simp at h
          · intro h
            exact absurd h hrhs
      case neg =>
        rw [normalize_row_minutes_notdigit i row hd hm (by simpa using hdig)]
        refine ⟨by simp, ?_⟩
        constructor
        · intro h
          simp at h
        · intro h
          exact absurd h hrhs

/-- Counterexample for C6 as stated: a row with a blank end but a
non-blank start gets the both-empty result, so both-empty is not
restricted to rows whose time fields are all blank. -/
theorem both_empty_with_nonblank_start :
    normalize_row 2 [(("date"), ("2026-02-13")), (("minutes"), ("")),
                     (("start"), ("09:00")), (("end"), (""))] = (none, []) ∧
    pyStrip (pyGet [(("date"), ("2026-02-13")), (("minutes"), ("")),
                    (("start"), ("09:00")), (("end"), (""))] ("start")) ≠ ("") := by
  constructor
  · decide
  · decide

/-- Witness for C6 at a concrete row with all time fields blank. -/
theorem normalize_row_result_shape_witness :
    normalize_row 2 [(("date"), ("2026-02-13")), (("process"), ("p")), (("operator"), ("A"))] =
      (none, []) :=
  (normalize_row_result_shape 2
    [(("date"), ("2026-02-13")), (("process"), ("p")), (("operator"), ("A"))]).2.mpr
    (by decide)

/-- C4 (amended): duration-mode precedence holds for rows whose date is
well-formed: when the duration field trims to a positive digit string,
`normalize_row` returns the record carrying exactly that value, and the
outcome is determined without consulting start or end. -/
theorem duration_mode_precedence (i : Nat) (row : Row)
    (hd : pyParseDate (pyStrip (pyGet row ("date"))) = true)
    (hdig : pyIsdigit (pyStrip (pyGet row ("minutes"))) = true)
    (hpos : 0 < pyIntOfDigits (pyStrip (pyGet row ("minutes")))) :
    normalize_row i row =
      (some ⟨pyStrip (pyGet row ("date")), pyStrip (pyGet row ("process")),
             pyStrip (pyGet row ("operator")),
             ((pyIntOfDigits (pyStrip (pyGet row ("minutes"))) : Nat) : Int),
             pyStrip (pyGet row ("note"))⟩, []) :=
  normalize_row_minutes_pos i row hd hdig hpos

/-- Counterexample for C4 as stated: the date check precedes the duration
check, so a row with a valid positive duration but an invalid date yields
no record at all. -/
theorem duration_mode_requires_valid_date :
    pyIsdigit (pyStrip (pyGet [(("date"), ("2026-13-01")), (("minutes"), ("30")),
        (("process"), ("p")), (("operator"), ("A"))] ("minutes"))) = true ∧
    0 < pyIntOfDigits (pyStrip (pyGet [(("date"), ("2026-13-01")), (("minutes"), ("30")),
        (("process"), ("p")), (("operator"), ("A"))] ("minutes"))) ∧
    normalize_row 2 [(("date"), ("2026-13-01")), (("minutes"), ("30")),
        (("process"), ("p")), (("operator"), ("A"))] =
      (none, [⟨2, ("date_invalid: expected YYYY-MM-DD"),
              [(("date"), ("2026-13-01")), (("minutes"), ("30")),
               (("process"), ("p")), (("operator"), ("A"))]⟩]) := by
  refine ⟨by decide, by decide, by decide⟩

/-- Witness for C4 at a row that also carries start/end values. -/
theorem duration_mode_precedence_witness :
    normalize_row 2 [(("date"), ("2026-02-13")), (("minutes"), ("30")),
        (("start"), ("09:00")), (("end"), ("10:00"))] =
      (some ⟨pyStrip (pyGet [(("date"), ("2026-02-13")), (("minutes"), ("30")),
                 (("start"), ("09:00")), (("end"), ("10:00"))] ("date")),
             pyStrip (pyGet [(("date"), ("2026-02-13")), (("minutes"), ("30")),
                 (("start"), ("09:00")), (("end"), ("10:00"))] ("process")),
             pyStrip (pyGet [(("date"), ("2026-02-13")), (("minutes"), ("30")),
                 (("start"), ("09:00")), (("end"), ("10:00"))] ("operator")),
             ((pyIntOfDigits (pyStrip (pyGet [(("date"), ("2026-02-13")), (("minutes"), ("30")),
                 (("start"), ("09:00")), (("end"), ("10:00"))] ("minutes"))) : Nat) : Int),
             pyStrip (pyGet [(("date"), ("2026-02-13")), (("minutes"), ("30")),
                 (("start"), ("09:00")), (("end"), ("10:00"))] ("note"))⟩, []) :=
  duration_mode_precedence 2
    [(("date"), ("2026-02-13")), (("minutes"), ("30")),
     (("start"), ("09:00")), (("end"), ("10:00"))]
    (by decide) (by decide) (by decide)

/-- C7 (amended): a non-blank duration that is an all-digit string with
value 0 draws `minutes_invalid: must be integer > 0` from both the
validator and (on a well-formed date) the normalizer, while any non-blank
duration that is not an all-digit string — including negatives such as
-5 — draws `minutes_invalid: not an integer` from both. -/
theorem nonpositive_minutes_classification (i : Nat) (row : Row)
    (hd : pyParseDate (pyStrip (pyGet row ("date"))) = true)
    (hne : pyStrip (pyGet row ("minutes")) ≠ ("")) :
    ((pyIsdigit (pyStrip (pyGet row ("minutes"))) = true ∧
      pyIntOfDigits (pyStrip (pyGet row ("minutes"))) = 0) →
      (time_rule_reasons i row = [⟨i, ("minutes_invalid: must be integer > 0"), row⟩] ∧
       normalize_row i row = (none, [⟨i, ("minutes_invalid: must be integer > 0"), row⟩]))) ∧
    (pyIsdigit (pyStrip (pyGet row ("minutes"))) = false →
      (time_rule_reasons i row = [⟨i, ("minutes_invalid: not an integer"), row⟩] ∧
       normalize_row i row = (none, [⟨i, ("minutes_invalid: not an integer"), row⟩]))) := by
  constructor
  · rintro ⟨hdig, hz⟩
    constructor
    · unfold time_rule_reasons
      rw [if_pos hne, if_neg (not_not_intro hdig), if_pos (by omega)]
    · exact normalize_row_minutes_zero i row hd hdig hz
  · intro hnd
    constructor
    · unfold time_rule_reasons
      rw [if_pos hne, if_pos (by simp [hnd])]
    · exact normalize_row_minutes_notdigit i row hd hne hnd

/-- Counterexample for C7 as stated: the duration -5 trims to an integer
literal that is ≤ 0, yet both stages classify it as
`minutes_invalid: not an integer`, not `must be integer > 0`, because the
sign character fails the digit test. -/
theorem negative_minutes_not_an_integer :
    time_rule_reasons 2 [(("date"), ("2026-02-13")), (("minutes"), ("-5")),
        (("process"), ("p")), (("operator"), ("A"))] =
      [⟨2, ("minutes_invalid: not an integer"),
        [(("date"), ("2026-02-13")), (("minutes"), ("-5")),
         (("process"), ("p")), (("operator"), ("A"))]⟩] ∧
    normalize_row 2 [(("date"), ("2026-02-13")), (("minutes"), ("-5")),
        (("process"), ("p")), (("operator"), ("A"))] =
      (none, [⟨2, ("minutes_invalid: not an integer"),
              [(("date"), ("2026-02-13")), (("minutes"), ("-5")),
               (("process"), ("p")), (("operator"), ("A"))]⟩]) := by
  refine ⟨by decide, by decide⟩

/-- Witness for C7 at a row with duration 0. -/
theorem nonpositive_minutes_classification_witness :
    time_rule_reasons 2 [(("date"), ("2026-02-13")), (("minutes"), ("0"))] =
      [⟨2, ("minutes_invalid: must be integer > 0"),
        [(("date"), ("2026-02-13")), (("minutes"), ("0"))]⟩] ∧
    normalize_row 2 [(("date"), ("2026-02-13")), (("minutes"), ("0"))] =
      (none, [⟨2, ("minutes_invalid: must be integer > 0"),
              [(("date"), ("2026-02-13")), (("minutes"), ("0"))]⟩]) :=
  (nonpositive_minutes_classification 2 [(("date"), ("2026-02-13")), (("minutes"), ("0"))]
    (by decide) (by decide)).1 ⟨by decide, by decide⟩

/-- C2 (amended): `normalize_row` treats end-before-start as crossing
midnight, producing a record with duration `(1440 - start) + end`; the
build pipeline's own inline step does not (see the counterexample). -/
theorem normalize_overnight_wraparound (i : Nat) (row : Row) (smin emin : Nat)
    (hd : pyParseDate (pyStrip (pyGet row ("date"))) = true)
    (hm : pyStrip (pyGet row ("minutes")) = (""))
    (hs : _parse_hhmm_to_minutes (pyStrip (pyGet row ("start"))) = some smin)
    (hee : _parse_hhmm_to_minutes (pyStrip (pyGet row ("end"))) = some emin)
    (hlt : emin < smin) :
    normalize_row i row =
      (some ⟨pyStrip (pyGet row ("date")), pyStrip (pyGet row ("process")),
             pyStrip (pyGet row ("operator")), 24 * 60 - (smin : Int) + emin,
             pyStrip (pyGet row ("note"))⟩, []) := by
  have hb : smin ≤ 1439 := parse_hhmm_le _ _ hs
  rw [normalize_row_no_minutes i row hd hm]
  rw [start_end_path_parsed i row smin emin hs hee]
  simp only [if_pos hlt]
  rw [if_neg (by omega)]

/-- Counterexample for C2 as stated: on the overnight row 23:00 to 01:00
the inline normalization step of run_build (build.py lines 105-118)
computes `end - start` with no wraparound and rejects the row as
`time_order_invalid` instead of producing a 120-minute record. -/
theorem build_step_rejects_wraparound :
    build_row_step 2 [(("date"), ("2026-02-13")), (("start"), ("23:00")),
        (("end"), ("01:00")), (("process"), ("night")), (("operator"), ("A"))] =
      (none, [⟨2, ("time_order_invalid: end must be after start"),
              [(("date"), ("2026-02-13")), (("start"), ("23:00")),
               (("end"), ("01:00")), (("process"), ("night")), (("operator"), ("A"))]⟩]) := by
  decide

/-- Witness for C2: the 23:00 to 01:00 row normalizes to a 120-minute
record through `normalize_row`. -/
theorem normalize_overnight_wraparound_witness :
    normalize_row 2 [(("date"), ("2026-02-13")), (("start"), ("23:00")),
        (("end"), ("01:00")), (("process"), ("night")), (("operator"), ("A"))] =
      (some ⟨pyStrip (pyGet [(("date"), ("2026-02-13")), (("start"), ("23:00")),
                 (("end"), ("01:00")), (("process"), ("night")), (("operator"), ("A"))] ("date")),
             pyStrip (pyGet [(("date"), ("2026-02-13")), (("start"), ("23:00")),
                 (("end"), ("01:00")), (("process"), ("night")), (("operator"), ("A"))] ("process")),
             pyStrip (pyGet [(("date"), ("2026-02-13")), (("start"), ("23:00")),
                 (("end"), ("01:00")), (("process"), ("night")), (("operator"), ("A"))] ("operator")),
             24 * 60 - ((1380 : Nat) : Int) + ((60 : Nat) : Int),
             pyStrip (pyGet [(("date"), ("2026-02-13")), (("start"), ("23:00")),
                 (("end"), ("01:00")), (("process"), ("night")), (("operator"), ("A"))] ("note"))⟩,
       []) :=
  normalize_overnight_wraparound 2
    [(("date"), ("2026-02-13")), (("start"), ("23:00")),
     (("end"), ("01:00")), (("process"), ("night")), (("operator"), ("A"))]
    1380 60 (by decide) (by decide) (by decide) (by decide) (by decide)

/-- C5: every record either step function constructs carries a positive
duration; a non-positive or unparseable derived duration never reaches a
record. -/
theorem positive_duration_invariant (i : Nat) (row : Row) (rec : NormalizedRow)
    (errs : List RowError) :
    (normalize_row i row = (some rec, errs) → 0 < rec.minutes) ∧
    (build_row_step i row = (some rec, errs) → 0 < rec.minutes) :=
  ⟨normalize_row_rec_pos i row rec errs, build_row_step_rec_pos i row rec errs⟩

/-- Witness for C5 at a concrete duration-mode row. -/
theorem positive_duration_invariant_witness :
    0 < (⟨("2026-02-13"), ("p"), ("A"), (25 : Int), ("")⟩ : NormalizedRow).minutes :=
  (positive_duration_invariant 2
    [(("date"), ("2026-02-13")), (("process"), ("p")), (("operator"), ("A")),
     (("minutes"), ("25"))]
    ⟨("2026-02-13"), ("p"), ("A"), (25 : Int), ("")⟩ []).1 (by decide)

/-- C10: every record `normalize_row` builds through the start/end path (a
blank duration field) has a duration between 1 and 1439, so an interval
row can never reach a full day; a duration-mode row can exceed 1440, as
the concrete 100000-minute record shows. -/
theorem interval_span_bound (i : Nat) (row : Row) (rec : NormalizedRow)
    (errs : List RowError)
    (hm : pyStrip (pyGet row ("minutes")) = (""))
    (h : normalize_row i row = (some rec, errs)) :
    (1 ≤ rec.minutes ∧ rec.minutes ≤ 1439) ∧
    normalize_row 2 [(("date"), ("2026-02-13")), (("process"), ("p")),
        (("operator"), ("A")), (("minutes"), ("100000"))] =
      (some ⟨("2026-02-13"), ("p"), ("A"), (100000 : Int), ("")⟩, []) := by
  refine ⟨?_, by decide⟩
  by_cases hd : pyParseDate (pyStrip (pyGet row ("date"))) = true
  case neg =>
    rw [normalize_row_date_bad i row (by simpa using hd)] at h
    exact absurd h (by simp)
  case pos =>
    rw [normalize_row_no_minutes i row hd hm] at h
    by_cases hblank : pyStrip (pyGet row ("start")) = "" ∨ pyStrip (pyGet row ("end")) = ""
    case pos =>
      rw [start_end_path_blank i row hblank] at h
      exact absurd h (by simp)
    case neg =>
      push_neg at hblank
      obtain ⟨hst, hen⟩ := hblank
      cases hs : _parse_hhmm_to_minutes (pyStrip (pyGet row ("start"))) with
      | none =>
        rw [start_end_path_start_bad i row hst hen hs] at h
        exact absurd h (by simp)
      | some smin =>
        cases he2 : _parse_hhmm_to_minutes (pyStrip (pyGet row ("end"))) with
        | none =>
          rw [start_end_path_end_bad i row smin hst hen hs he2] at h
          exact absurd h (by simp)
        | some emin =>
          have hbs : smin ≤ 1439 := parse_hhmm_le _ _ hs
          have hbe : emin ≤ 1439 := parse_hhmm_le _ _ he2
          rw [start_end_path_parsed i row smin emin hs he2] at h
          split at h <;> split at h
          · exact absurd h (by simp)
          · rename_i hlt hdiff
            simp only [Prod.mk.injEq, Option.some.injEq] at h
            obtain ⟨h1, h2⟩ := h
            subst h1
            constructor
            · show (1 : Int) ≤ 24 * 60 - (smin : Int) + emin
              omega
            · show 24 * 60 - (smin : Int) + emin ≤ 1439
              omega
          · exact absurd h (by simp)
          · rename_i hlt hdiff
            simp only [Prod.mk.injEq, Option.some.injEq] at h
            obtain ⟨h1, h2⟩ := h
            subst h1
            constructor
            · show (1 : Int) ≤ (emin : Int) - smin
              omega
            · show (emin : Int) - smin ≤ 1439
              omega

/-- Witness for C10 at the interval row 09:00 to 09:45. -/
theorem interval_span_bound_witness :
    ((1 : Int) ≤ (⟨("2026-02-13"), (""), (""), (45 : Int), ("")⟩ : NormalizedRow).minutes ∧
      (⟨("2026-02-13"), (""), (""), (45 : Int), ("")⟩ : NormalizedRow).minutes ≤ 1439) ∧
    normalize_row 2 [(("date"), ("2026-02-13")), (("process"), ("p")),
        (("operator"), ("A")), (("minutes"), ("100000"))] =
      (some ⟨("2026-02-13"), ("p"), ("A"), (100000 : Int), ("")⟩, []) :=
  interval_span_bound 2
    [(("date"), ("2026-02-13")), (("start"), ("09:00")), (("end"), ("09:45"))]
    ⟨("2026-02-13"), (""), (""), (45 : Int), ("")⟩ [] (by decide) (by decide)

/-- C3 (amended): `run_validate` converts any read failure into a single
row-0 `file_error` entry with status 2, while `run_build`, which has no
exception handler, propagates the failure (and on a successful read raises
before processing any row). -/
theorem run_validate_file_error_capture (path : String) (e : PyExc) :
    run_validate path (Except.error e) =
      (2, [⟨0, ("file_error: ") ++ e.name ++ (": ") ++ e.msg, [(("input"), path)]⟩]) ∧
    run_build (Except.error e) = Except.error e :=
  ⟨rfl, rfl⟩

/-- Counterexample for C3 as stated: on the headerless-file failure
`run_build` returns the propagated exception, not a status-2 result with
a rejection entry, and even a successful read makes it raise
`AttributeError` on the un-unpacked read result. -/
theorem run_build_propagates_file_error :
    run_build (Except.error ⟨("ValueError"), ("CSV has no header row.")⟩) =
      Except.error ⟨("ValueError"), ("CSV has no header row.")⟩ ∧
    run_build (Except.ok ((["date", "process", "operator"]), [])) =
      Except.error ⟨("AttributeError"), ("list object has no attribute get")⟩ :=
  ⟨rfl, rfl⟩

/-- C8 (amended): each validation pass on its own assigns at most one
reason per row number — `validate_time_rules` stops at the first
violation and `validate_required_columns` emits one `missing_required`
entry listing every blank required field — but a row can collect one
reason from each of the two passes (see the counterexample). -/
theorem per_pass_single_reason (rows : List Row) (k i : Nat) (r : Row) :
    ((validate_time_rules rows).filter (fun e => e.row_number == k)).length ≤ 1 ∧
    ((validate_required_columns rows).filter (fun e => e.row_number == k)).length ≤ 1 ∧
    (required_reasons i r = [] ∨
      required_reasons i r =
        [⟨i, ("missing_required: ") ++ String.intercalate (",")
              (REQUIRED_COLUMNS.filter (fun c => pyStrip (pyGet r c) == "")), r⟩]) := by
  refine ⟨?_, ?_, ?_⟩
  · exact rows_from_filter_len time_rule_reasons time_rule_reasons_tag
      time_rule_reasons_len rows 2 k
  · exact rows_from_filter_len required_reasons required_reasons_tag
      required_reasons_len rows 2 k
  · unfold required_reasons
    split_ifs
    · left
      rfl
    · right
      rfl

/-- Counterexample for C8 as stated: a row with a blank required field and
a malformed duration receives two reasons with the same row number from
`run_validate` — one from each pass. -/
theorem two_reasons_same_row :
    run_validate ("in.csv")
      (Except.ok ((["date", "process", "operator", "minutes"]),
        [[(("date"), ("2026-02-13")), (("process"), ("")), (("operator"), ("A")),
          (("minutes"), ("abc"))]])) =
      (2, [⟨2, ("missing_required: process"),
            [(("date"), ("2026-02-13")), (("process"), ("")), (("operator"), ("A")),
             (("minutes"), ("abc"))]⟩,
           ⟨2, ("minutes_invalid: not an integer"),
            [(("date"), ("2026-02-13")), (("process"), ("")), (("operator"), ("A")),
             (("minutes"), ("abc"))]⟩]) ∧
    ((run_validate ("in.csv")
        (Except.ok ((["date", "process", "operator", "minutes"]),
          [[(("date"), ("2026-02-13")), (("process"), ("")), (("operator"), ("A")),
            (("minutes"), ("abc"))]]))).2.filter (fun e => e.row_number == 2)).length = 2 := by
  refine ⟨by decide, by decide⟩

/-- C9 (amended): the generated hypertext report contains a valid-row
count, a daily summary table and a process summary table; it receives no
rejection data at all (see the counterexample for the absence of any
rejection section). -/
theorem html_report_sections (items : List NormalizedRow) :
    ("<h2>Daily Summary</h2>") ∈ export_html_lines items ∧
    ("<h2>Process Summary</h2>") ∈ export_html_lines items ∧
    (("<p>valid rows: ") ++ toString items.length ++ ("</p>")) ∈ export_html_lines items := by
  refine ⟨?_, ?_, ?_⟩ <;> simp [export_html_lines]

/-- Counterexample for C9 as stated: the report for an empty record list
is exactly these lines, and no line of it mentions a rejection at all —
in particular there is no rejection-count section and no listing of the
first 10 rejection rows. -/
theorem html_report_has_no_rejection_section :
    export_html_lines [] =
      ["<!doctype html><html><head><meta charset=\x27utf-8\x27>",
       "<title>Worklog Report</title></head><body>",
       "<h1>Worklog Report</h1>",
       "<p>valid rows: 0</p>",
       "<h2>Daily Summary</h2>",
       "<table border=\x271\x27 cellpadding=\x274\x27 cellspacing=\x270\x27>",
       "<tr><th>date</th><th>total_minutes</th><th>work_count</th></tr>",
       "</table>",
       "<h2>Process Summary</h2>",
       "<table border=\x271\x27 cellpadding=\x274\x27 cellspacing=\x270\x27>",
       "<tr><th>process</th><th>count</th><th>sum_minutes</th></tr>",
       "</table>", "</body></html>"] ∧
    (export_html_lines []).all
      (fun s => !(occursIn (String.toList ("eject")) s.toList)) = true := by
  refine ⟨by decide, by decide⟩
